import Mathlib

/-!
Verification development for the TaskManagerBackend repository
(src/models/Task.js and src/routes/taskRoutes.js): a shallow embedding of
the task CRUD HTTP handlers, their validation and persistence semantics,
and theorems about the claims of the specification.

The embedding models:
  * JSON body values (`BVal`) and request bodies as association lists;
  * JavaScript `parseInt` as used for the `:id` path parameter;
  * the express-validator chains of `router.post` (`notEmpty`,
    `optional().isBoolean()`), including their conversion of values to
    strings and the loose boolean set of validator.js;
  * the Mongoose `Task` schema (title/description required strings,
    status Boolean default false, creationDate Date default now, id Number
    unique with the mongoose-sequence auto-increment counter), its type
    casts for queries and updates, and `runValidators` semantics for
    `findOneAndUpdate` (update validators run on the updated paths only,
    client-side, before the document is matched);
  * the five route handlers of taskRoutes.js as functions from a request
    and a database state to a response and a new state.
-/

namespace TaskManager

/-- A JSON value as it can appear in a request body field.  Objects and
arrays are not needed by any claim and are omitted from the embedding. -/
inductive BVal
  | vStr (s : String)
  | vBool (b : Bool)
  | vNum (n : Int)
  | vNull
deriving DecidableEq, Repr

/-- A parsed JSON request body: an association list of field names to
values (JSON object keys are unique, so the first binding is the value). -/
abbrev Body := List (String × BVal)

/-- Reading a field of the body: `req.body.k` / destructuring. -/
def getField (body : Body) (k : String) : Option BVal :=
  (body.find? (fun p => p.1 == k)).map (fun p => p.2)

/-- A persisted task document, following the fields of `TaskSchema` in
src/models/Task.js.  `creationDate` is a millisecond timestamp. -/
structure Task where
  id : Int
  title : String
  description : String
  status : Bool
  creationDate : Int
deriving DecidableEq, Repr

/-- The database state: the task collection, in insertion order, and the
mongoose-sequence counter for the `id` field (the counter lives outside
the task documents and is never decremented). -/
structure DB where
  tasks : List Task
  counter : Nat
deriving DecidableEq, Repr

/-- The initial, empty database: no tasks, counter at 0 (mongoose-sequence
assigns 1 to the first document). -/
def DB.init : DB := ⟨[], 0⟩

/-- The ids of the tasks currently stored. -/
def DB.ids (db : DB) : List Int := db.tasks.map Task.id

/-- One express-validator error entry (`errors.array()` element): the
offending path and the `withMessage` text. -/
structure FieldError where
  path : String
  msg : String
deriving DecidableEq, Repr

/-- The JSON responses the handlers of taskRoutes.js can produce. -/
inductive Resp
  | okTasks (ts : List Task)
  | okTask (t : Task)
  | created (t : Task)
  | okMsg (m : String)
  | badRequest (errs : List FieldError)
  | notFound (m : String)
  | serverError (m : String)
deriving DecidableEq, Repr

/-- The HTTP status code of a response. -/
def Resp.code : Resp → Nat
  | .okTasks _ => 200
  | .okTask _ => 200
  | .created _ => 201
  | .okMsg _ => 200
  | .badRequest _ => 400
  | .notFound _ => 404
  | .serverError _ => 500

/-- The task list carried by a 200 list response. -/
def Resp.tasksOf : Resp → List Task
  | .okTasks ts => ts
  | _ => []

/-! ## JavaScript `parseInt`

The `:id` path parameter is converted with `parseInt(id)` in the GET/PUT/
DELETE handlers.  `parseInt` skips leading whitespace, accepts an optional
sign, switches to base 16 after a `0x`/`0X` marker, and reads the longest
prefix of digits of the base; if that prefix is empty the result is NaN,
modelled as `none`. -/

/-- JavaScript whitespace accepted by `parseInt` (common characters). -/
def isJsSpace (c : Char) : Bool :=
  c == ' ' || c == '\t' || c == '\n' || c == '\r'

/-- The value of a digit character in the given base, if it is one. -/
def digitVal (base : Nat) (c : Char) : Option Nat :=
  let v : Option Nat :=
    if '0' ≤ c && c ≤ '9' then some (c.toNat - 48)
    else if 'a' ≤ c && c ≤ 'f' then some (c.toNat - 87)
    else if 'A' ≤ c && c ≤ 'F' then some (c.toNat - 55)
    else none
  match v with
  | some d => if d < base then some d else none
  | none => none

/-- Accumulate the longest digit prefix; `none` when no digit was read. -/
def readDigits (base : Nat) : List Char → Option Nat → Option Nat
  | [], acc => acc
  | c :: rest, acc =>
    match digitVal base c with
    | some d => readDigits base rest (some ((acc.getD 0) * base + d))
    | none => acc

/-- JavaScript `parseInt(s)` (radix argument omitted, as in the source):
`none` models NaN. -/
def parseIntJS (s : String) : Option Int :=
  let cs := s.toList.dropWhile isJsSpace
  let signAndRest : Int × List Char :=
    match cs with
    | '-' :: rest => (-1, rest)
    | '+' :: rest => (1, rest)
    | _ => (1, cs)
  let baseAndRest : Nat × List Char :=
    match signAndRest.2 with
    | '0' :: 'x' :: rest => (16, rest)
    | '0' :: 'X' :: rest => (16, rest)
    | _ => (10, signAndRest.2)
  (readDigits baseAndRest.1 baseAndRest.2 none).map
    (fun n => signAndRest.1 * (n : Int))

/-! ## Mongoose casts

Casting of body values to the schema types of `TaskSchema`.  A cast
returning `none` models a Mongoose `CastError` (for `null` on a required
string path the real error is a `ValidationError` instead, but both are
rejections surfaced through the same `catch` branch). -/

/-- Cast to the `String` schema type: strings are kept, numbers and
booleans are converted via `toString`. -/
def castString : BVal → Option String
  | .vStr s => some s
  | .vNum n => some (toString n)
  | .vBool true => some "true"
  | .vBool false => some "false"
  | .vNull => none

/-- Cast to the `Boolean` schema type, for non-null values: Mongoose's
`convertToTrue` set is `true, 'true', 1, '1', 'yes'` and `convertToFalse`
is `false, 'false', 0, '0', 'no'`; every other non-null value is a
CastError.  Mongoose passes `null` through as valid (the stored field
would become null), which is outside this embedding's value domain
(`Task.status` is a boolean), so `castBool` maps `vNull` to `none`;
theorems about failing updates therefore exclude null status values from
their hypotheses rather than rely on this case. -/
def castBool : BVal → Option Bool
  | .vBool b => some b
  | .vStr "true" => some true
  | .vStr "1" => some true
  | .vStr "yes" => some true
  | .vStr "false" => some false
  | .vStr "0" => some false
  | .vStr "no" => some false
  | .vNum 1 => some true
  | .vNum 0 => some false
  | _ => none

/-- Decimal digit string to a natural number; `none` if empty or not all
digits.  Used for Mongoose's `Number` cast of strings (fractional and
exponent forms of JavaScript `Number(s)` are not needed by any claim and
are not modelled). -/
def decDigits : List Char → Option Nat → Option Nat
  | [], acc => acc
  | c :: rest, acc =>
    if '0' ≤ c && c ≤ '9' then
      decDigits rest (some ((acc.getD 0) * 10 + (c.toNat - 48)))
    else none

/-- Cast to the `Number` schema type, for non-null values: numbers are
kept, booleans become 0/1, integer strings are parsed; NaN (and any other
non-null value) is a CastError (`assert.ok(!isNaN(val))` in mongoose
lib/cast/number.js).  Mongoose passes `null` through and accepts
fractional/exponent numeric strings via JavaScript `Number(val)`, which
would store a null or non-integer id — outside this embedding's integer
id domain — so `castNumber` maps those to `none`; theorems about failing
updates exclude such id values from their hypotheses rather than rely on
this case. -/
def castNumber : BVal → Option Int
  | .vNum n => some n
  | .vBool true => some 1
  | .vBool false => some 0
  | .vStr s =>
    match s.toList with
    | '-' :: rest => (decDigits rest none).map (fun n => -(n : Int))
    | cs => (decDigits cs none).map (fun n => (n : Int))
  | .vNull => none

/-- Cast to the `Date` schema type, as a millisecond timestamp, for
non-null numeric values (epoch milliseconds).  Mongoose also passes
`null` through and accepts parseable date strings; null dates and
date-string parsing are outside this embedding's value domain, so
`castDate` maps them to `none`; theorems about failing updates exclude
such creationDate values from their hypotheses rather than rely on this
case. -/
def castDate : BVal → Option Int
  | .vNum n => some n
  | _ => none

/-! ## express-validator semantics (POST route, lines 94-114)

`body('title').notEmpty()`, `body('description').notEmpty()`,
`body('status').optional().isBoolean()`.  express-validator converts the
field value to a string (missing and `null` become `''`) and applies the
validator.js predicate; `isBoolean` with default options accepts exactly
the strings `'true'`, `'false'`, `'0'`, `'1'`. -/

/-- express-validator's conversion of a (possibly missing) field value to
the string handed to validator.js. -/
def toValidatorStr : Option BVal → String
  | none => ""
  | some .vNull => ""
  | some (.vStr s) => s
  | some (.vBool true) => "true"
  | some (.vBool false) => "false"
  | some (.vNum n) => toString n

/-- validator.js `isBoolean(str)` with default (strict-list) options. -/
def isBooleanLoose (s : String) : Bool :=
  s == "true" || s == "false" || s == "0" || s == "1"

/-- The validation chain of `router.post('/')`: one error entry per failed
validator, in chain order (title, description, status). -/
def validatePost (body : Body) : List FieldError :=
  (if toValidatorStr (getField body "title") = "" then
    [⟨"title", "El título es obligatorio"⟩] else []) ++
  (if toValidatorStr (getField body "description") = "" then
    [⟨"description", "La descripción es obligatoria"⟩] else []) ++
  (match getField body "status" with
   | none => []
   | some v =>
     if isBooleanLoose (toValidatorStr (some v)) then []
     else [⟨"status", "El estado debe ser un valor booleano"⟩])

/-! ## Route handlers

Each handler maps a request and a database state to a response and the
next state, following taskRoutes.js line by line.  The `Option Int`
argument of the core handlers is the result of `parseInt` on the `:id`
path parameter; `none` is NaN, which Mongoose's Number cast rejects
(`CastError`, caught and surfaced as a 500 response). -/

/-- `router.get('/')` (lines 22-36): if the `status` query parameter is
present the collection is filtered by `status === 'true'`, otherwise all
tasks are returned. -/
def getTasks (statusParam : Option String) (db : DB) : Resp × DB :=
  match statusParam with
  | some s => (.okTasks (db.tasks.filter (fun t => t.status == (s == "true"))), db)
  | none => (.okTasks db.tasks, db)

/-- `Task.findOne({id: n})` and the 404/200 mapping of
`router.get('/:id')` (lines 56-68).  A NaN id fails the Number cast of
the query filter and rejects, landing in the `catch` branch. -/
def getByIdCore (pid : Option Int) (db : DB) : Resp × DB :=
  match pid with
  | none => (.serverError "Cast to Number failed for value NaN at path id", db)
  | some n =>
    match db.tasks.find? (fun t => t.id == n) with
    | none => (.notFound "Tarea no encontrada", db)
    | some t => (.okTask t, db)

/-- `router.get('/:id')`: parse the path parameter, then query. -/
def getTaskById (rawId : String) (db : DB) : Resp × DB :=
  getByIdCore (parseIntJS rawId) db

/-- `new Task({title, status, description})` followed by `save()`:
validation (casts, required title/description, status cast or default
false) runs first; on success the mongoose-sequence pre-save hook
increments the counter and assigns the id, then the insert runs, which
fails on a duplicate of the unique `id` index (the counter stays
incremented in that case). -/
def createTask (now : Int) (tv dv sv : Option BVal) (db : DB) : Resp × DB :=
  match tv.bind castString, dv.bind castString,
        (match sv with | none => some false | some v => castBool v) with
  | some t, some d, some s =>
    if t = "" ∨ d = "" then (.serverError "Task validation failed", db)
    else if ((db.counter : Int) + 1) ∈ db.ids then
      (.serverError "E11000 duplicate key error", ⟨db.tasks, db.counter + 1⟩)
    else
      (.created ⟨(db.counter : Int) + 1, t, d, s, now⟩,
       ⟨db.tasks ++ [⟨(db.counter : Int) + 1, t, d, s, now⟩], db.counter + 1⟩)
  | _, _, _ => (.serverError "Task validation failed", db)

/-- `router.post('/')` (lines 94-114): run the validation chains; on any
error respond 400 with `errors.array()`; otherwise destructure exactly
`{title, status, description}` from the body and save a new task. -/
def postTask (now : Int) (body : Body) (db : DB) : Resp × DB :=
  if validatePost body = [] then
    createTask now (getField body "title") (getField body "description")
      (getField body "status") db
  else (.badRequest (validatePost body), db)

/-- The `$set` document Mongoose derives from the PUT request body: each
schema path present in the body, cast to its schema type.  Non-schema
keys are dropped by strict mode. -/
structure Upd where
  title : Option String
  description : Option String
  status : Option Bool
  id : Option Int
  creationDate : Option Int
deriving DecidableEq, Repr

/-- Cast an optional update value; absence is fine, a present value must
cast. -/
def castOpt {α : Type} (f : BVal → Option α) : Option BVal → Option (Option α)
  | none => some none
  | some v => (f v).map some

/-- `castUpdate` on the PUT body: `none` is a CastError (thrown
client-side, before the document is looked up). -/
def castUpd (body : Body) : Option Upd :=
  match castOpt castString (getField body "title"),
        castOpt castString (getField body "description"),
        castOpt castBool (getField body "status"),
        castOpt castNumber (getField body "id"),
        castOpt castDate (getField body "creationDate") with
  | some t, some d, some s, some i, some c => some ⟨t, d, s, i, c⟩
  | _, _, _, _, _ => none

/-- `runValidators: true` on `findOneAndUpdate`: update validators run on
the updated paths only — `required` re-checks title/description when they
are being set (an empty string fails), status/id/creationDate have no
further validators beyond their casts. -/
def updValid (u : Upd) : Bool :=
  (match u.title with | some t => !(t == "") | none => true) &&
  (match u.description with | some d => !(d == "") | none => true)

/-- Apply the `$set` document to a matched task document. -/
def applyUpd (u : Upd) (t : Task) : Task :=
  ⟨u.id.getD t.id, u.title.getD t.title, u.description.getD t.description,
   u.status.getD t.status, u.creationDate.getD t.creationDate⟩

/-- Update the first task whose id matches; `none` when no task does. -/
def updateList (n : Int) (u : Upd) : List Task → Option (Task × List Task)
  | [] => none
  | t :: rest =>
    if t.id == n then
      let updated := applyUpd u t
      some (updated, updated :: rest)
    else (updateList n u rest).map (fun p => (p.1, t :: p.2))

/-- The unique index on `id`: setting `id` to a value held by a different
document makes the write fail with a duplicate-key error. -/
def idConflict (n : Int) (u : Upd) (tasks : List Task) : Bool :=
  match u.id with
  | none => false
  | some m => tasks.any (fun t => t.id == m && !(t.id == n))

/-- `Task.findOneAndUpdate({id: n}, updateData, {new: true, runValidators:
true})` and the response mapping of `router.put('/:id')` (lines 147-169).
The update document is cast and validated client-side before the filter
is evaluated, so those errors fire even when no document matches; every
error lands in the `catch` branch as a 500 (the route has no 400 path). -/
def updateCore (pid : Option Int) (body : Body) (db : DB) : Resp × DB :=
  match castUpd body with
  | none => (.serverError "Cast to value failed", db)
  | some u =>
    if updValid u then
      match pid with
      | none => (.serverError "Cast to Number failed for value NaN at path id", db)
      | some n =>
        match updateList n u db.tasks with
        | none => (.notFound "Tarea no encontrada", db)
        | some p =>
          if idConflict n u db.tasks then
            (.serverError "E11000 duplicate key error", db)
          else (.okTask p.1, ⟨p.2, db.counter⟩)
    else (.serverError "Validation failed", db)

/-- `router.put('/:id')`: parse the path parameter, then update. -/
def updateTask (rawId : String) (body : Body) (db : DB) : Resp × DB :=
  updateCore (parseIntJS rawId) body db

/-- Remove the first task whose id matches; `none` when no task does. -/
def removeFirst (n : Int) : List Task → Option (List Task)
  | [] => none
  | t :: rest =>
    if t.id == n then some rest
    else (removeFirst n rest).map (fun l => t :: l)

/-- `Task.findOneAndDelete({id: n})` and the response mapping of
`router.delete('/:id')` (lines 189-202). -/
def deleteCore (pid : Option Int) (db : DB) : Resp × DB :=
  match pid with
  | none => (.serverError "Cast to Number failed for value NaN at path id", db)
  | some n =>
    match removeFirst n db.tasks with
    | none => (.notFound "Tarea no encontrada", db)
    | some ts => (.okMsg "Tarea eliminada correctamente", ⟨ts, db.counter⟩)

/-- `router.delete('/:id')`: parse the path parameter, then delete. -/
def deleteTask (rawId : String) (db : DB) : Resp × DB :=
  deleteCore (parseIntJS rawId) db

/-! ## Operation traces

For the identifier claims, a request trace is a list of operations folded
through the handlers. -/

/-- One inbound request. -/
inductive Op
  | list (statusParam : Option String)
  | getOne (rawId : String)
  | post (now : Int) (body : Body)
  | put (rawId : String) (body : Body)
  | del (rawId : String)

/-- Dispatch one request to its handler. -/
def step (db : DB) : Op → Resp × DB
  | .list s => getTasks s db
  | .getOne r => getTaskById r db
  | .post now b => postTask now b db
  | .put r b => updateTask r b db
  | .del r => deleteTask r db

/-- The ids assigned by the successful creates of a trace, in order. -/
def createdIds (db : DB) : List Op → List Int
  | [] => []
  | op :: rest =>
    (match (step db op).1 with
     | .created t => [t.id]
     | _ => []) ++ createdIds (step db op).2 rest

/-- A well-typed POST body as described by the external interface:
title, description, and optionally a boolean status. -/
def mkPostBody (title desc : String) (status : Option Bool) : Body :=
  [("title", .vStr title), ("description", .vStr desc)] ++
  (match status with
   | some b => [("status", .vBool b)]
   | none => [])

/-- A sample stored task (the example scenario of the specification). -/
def exTask : Task := ⟨1, "Buy milk", "2%", false, 0⟩

/-- A database holding just `exTask`, with the counter at 1. -/
def exDB : DB := ⟨[exTask], 1⟩

/-- `exTask` with its status flipped to true by an update. -/
def exTaskDone : Task := ⟨1, "Buy milk", "2%", true, 0⟩

/-- The database after `PUT /tasks/1 {status: true}` on `exDB`. -/
def exDBdone : DB := ⟨[exTaskDone], 1⟩

/-! ## Helper lemmas -/

theorem getTasks_snd (s : Option String) (db : DB) : (getTasks s db).2 = db := by
  cases s <;> rfl

theorem getTasks_not_created (s : Option String) (db : DB) (t : Task) :
    (getTasks s db).1 ≠ Resp.created t := by
  cases s <;> simp [getTasks]

theorem getByIdCore_snd (pid : Option Int) (db : DB) : (getByIdCore pid db).2 = db := by
  unfold getByIdCore
  repeat' first | rfl | split

theorem getByIdCore_not_created (pid : Option Int) (db : DB) (t : Task) :
    (getByIdCore pid db).1 ≠ Resp.created t := by
  unfold getByIdCore
  repeat' split
  all_goals simp

theorem updateCore_counter (pid : Option Int) (body : Body) (db : DB) :
    (updateCore pid body db).2.counter = db.counter := by
  unfold updateCore
  repeat' first | rfl | split

theorem updateCore_not_created (pid : Option Int) (body : Body) (db : DB) (t : Task) :
    (updateCore pid body db).1 ≠ Resp.created t := by
  unfold updateCore
  repeat' split
  all_goals simp

theorem deleteCore_counter (pid : Option Int) (db : DB) :
    (deleteCore pid db).2.counter = db.counter := by
  unfold deleteCore
  repeat' first | rfl | split

theorem deleteCore_not_created (pid : Option Int) (db : DB) (t : Task) :
    (deleteCore pid db).1 ≠ Resp.created t := by
  unfold deleteCore
  repeat' split
  all_goals simp

theorem createTask_created_inv (now : Int) (tv dv sv : Option BVal) (db : DB)
    (t : Task) (db2 : DB) (h : createTask now tv dv sv db = (Resp.created t, db2)) :
    t.id = (db.counter : Int) + 1 ∧ db2.counter = db.counter + 1 := by
  unfold createTask at h
  split at h
  · split at h
    · exact absurd h (by simp)
    · split at h
      · exact absurd h (by simp)
      · simp only [Prod.mk.injEq, Resp.created.injEq] at h
        obtain ⟨ht, hdb⟩ := h
        subst ht
        subst hdb
        exact ⟨rfl, rfl⟩
  · exact absurd h (by simp)

theorem postTask_created_inv (now : Int) (body : Body) (db : DB) (t : Task) (db2 : DB)
    (h : postTask now body db = (Resp.created t, db2)) :
    t.id = (db.counter : Int) + 1 ∧ db2.counter = db.counter + 1 := by
  unfold postTask at h
  split at h
  · exact createTask_created_inv _ _ _ _ _ _ _ h
  · exact absurd h (by simp)

theorem postTask_counter (now : Int) (body : Body) (db : DB) :
    (postTask now body db).2.counter = db.counter ∨
    (postTask now body db).2.counter = db.counter + 1 := by
  unfold postTask createTask
  repeat' split
  all_goals simp

theorem step_counter_mono (db : DB) (op : Op) : db.counter ≤ (step db op).2.counter := by
  cases op with
  | list s => simp [step, getTasks_snd]
  | getOne r => simp [step, getTaskById, getByIdCore_snd]
  | post now b =>
    rcases postTask_counter now b db with h | h <;> simp [step, h]
  | put r b => simp [step, updateTask, updateCore_counter]
  | del r => simp [step, deleteTask, deleteCore_counter]

theorem step_created_inv (db : DB) (op : Op) (t : Task)
    (h : (step db op).1 = Resp.created t) :
    t.id = (db.counter : Int) + 1 ∧ (step db op).2.counter = db.counter + 1 := by
  have hpair : step db op = (Resp.created t, (step db op).2) := by rw [← h]
  cases op with
  | list s => exact absurd h (getTasks_not_created s db t)
  | getOne r => exact absurd h (getByIdCore_not_created (parseIntJS r) db t)
  | post now b => exact postTask_created_inv now b db t _ hpair
  | put r b => exact absurd h (updateCore_not_created (parseIntJS r) b db t)
  | del r => exact absurd h (deleteCore_not_created (parseIntJS r) db t)

theorem createdIds_lt_all (ops : List Op) :
    ∀ (db : DB) (x : Int), x ∈ createdIds db ops → (db.counter : Int) < x := by
  induction ops with
  | nil => intro db x hx; simp [createdIds] at hx
  | cons op rest ih =>
    intro db x hx
    simp only [createdIds, List.mem_append] at hx
    rcases hx with hx | hx
    · cases hr : (step db op).1 <;> rw [hr] at hx <;> simp at hx
      case created t =>
        obtain ⟨hid, _⟩ := step_created_inv db op t hr
        subst hx
        omega
    · have h1 := ih (step db op).2 x hx
      have h2 := step_counter_mono db op
      omega

theorem createdIds_pairwise_lt (ops : List Op) :
    ∀ db : DB, (createdIds db ops).Pairwise (· < ·) := by
  induction ops with
  | nil => intro db; simp [createdIds]
  | cons op rest ih =>
    intro db
    simp only [createdIds]
    cases hr : (step db op).1 <;> simp only [List.nil_append, List.cons_append,
      List.append_nil, List.pairwise_cons]
    case created t =>
      refine ⟨fun x hx => ?_, ih _⟩
      have h1 := createdIds_lt_all rest (step db op).2 x hx
      obtain ⟨hid, hcnt⟩ := step_created_inv db op t hr
      omega
    all_goals exact ih _

theorem castUpd_eq (body : Body) (u : Upd) (h : castUpd body = some u) :
    castOpt castString (getField body "title") = some u.title ∧
    castOpt castString (getField body "description") = some u.description ∧
    castOpt castBool (getField body "status") = some u.status ∧
    castOpt castNumber (getField body "id") = some u.id ∧
    castOpt castDate (getField body "creationDate") = some u.creationDate := by
  unfold castUpd at h
  split at h
  · rename_i t d s i c h1 h2 h3 h4 h5
    injection h with h
    subst h
    exact ⟨h1, h2, h3, h4, h5⟩
  · cases h

theorem updateList_spec (n : Int) (u : Upd) :
    ∀ (l : List Task) (t2 : Task) (l2 : List Task),
      updateList n u l = some (t2, l2) →
      ∃ t pre post, l = pre ++ t :: post ∧ l2 = pre ++ t2 :: post ∧
        t2 = applyUpd u t ∧ t.id = n := by
  intro l
  induction l with
  | nil => intro t2 l2 h; cases h
  | cons hd rest ih =>
    intro t2 l2 h
    unfold updateList at h
    split at h
    · rename_i hid
      injection h with h
      injection h with h1 h2
      subst h1
      subst h2
      exact ⟨hd, [], rest, rfl, rfl, rfl, by simpa using hid⟩
    · rename_i hid
      cases hrec : updateList n u rest with
      | none => rw [hrec] at h; cases h
      | some p =>
        rw [hrec] at h
        injection h with h
        injection h with h1 h2
        subst h1
        subst h2
        obtain ⟨t, pre, post, he1, he2, he3, he4⟩ := ih p.1 p.2 (by rw [hrec])
        exact ⟨t, hd :: pre, post, by rw [he1]; rfl, by rw [he2]; rfl, he3, he4⟩

theorem updateList_eq_none (n : Int) (u : Upd) :
    ∀ l : List Task, (∀ t ∈ l, t.id ≠ n) → updateList n u l = none := by
  intro l
  induction l with
  | nil => intro _; rfl
  | cons hd rest ih =>
    intro h
    unfold updateList
    rw [if_neg, ih]
    · rfl
    · intro t ht; exact h t (List.mem_cons_of_mem hd ht)
    · simp only [beq_iff_eq]
      exact h hd (List.mem_cons_self hd rest)

theorem removeFirst_eq_none (n : Int) :
    ∀ l : List Task, (∀ t ∈ l, t.id ≠ n) → removeFirst n l = none := by
  intro l
  induction l with
  | nil => intro _; rfl
  | cons hd rest ih =>
    intro h
    unfold removeFirst
    rw [if_neg, ih]
    · rfl
    · intro t ht; exact h t (List.mem_cons_of_mem hd ht)
    · simp only [beq_iff_eq]
      exact h hd (List.mem_cons_self hd rest)

theorem removeFirst_spec (n : Int) :
    ∀ l : List Task, n ∈ l.map Task.id → (l.map Task.id).Nodup →
      ∃ l2, removeFirst n l = some l2 ∧ l2.map Task.id = (l.map Task.id).erase n ∧
        l2.find? (fun t => t.id == n) = none := by
  intro l
  induction l with
  | nil => intro h _; simp at h
  | cons hd rest ih =>
    intro hmem hnd
    simp only [List.map_cons, List.nodup_cons] at hnd
    obtain ⟨hni, hnd2⟩ := hnd
    by_cases hid : hd.id = n
    · refine ⟨rest, ?_, ?_, ?_⟩
      · unfold removeFirst; rw [if_pos (by simpa using hid)]
      · rw [List.map_cons, hid, List.erase_cons_head]
      · rw [List.find?_eq_none]
        intro x hx
        simp only [beq_iff_eq]
        intro hxn
        refine hni ?_
        rw [hid, ← hxn]
        exact List.mem_map_of_mem Task.id hx
    · have hmem2 : n ∈ rest.map Task.id := by
        simp only [List.map_cons, List.mem_cons] at hmem
        rcases hmem with h | h
        · exact absurd h.symm hid
        · exact h
      obtain ⟨l2, h1, h2, h3⟩ := ih hmem2 hnd2
      refine ⟨hd :: l2, ?_, ?_, ?_⟩
      · unfold removeFirst
        rw [if_neg (by simpa using hid), h1]
        rfl
      · rw [List.map_cons, List.map_cons, h2, List.erase_cons_tail]
        simp [hid]
      · rw [List.find?_cons_of_neg, h3]
        simp [hid]

/-! ## Claim theorems -/

/-- Claim C1 (confirmed): for every GET /tasks request, when the `status`
query parameter is present the response is exactly the tasks whose stored
`status` equals the boolean (status string == "true") — so every value
other than the literal string "true", including "false" and "foo",
selects the tasks with status false — and when the parameter is absent
the response is all tasks. -/
theorem list_tasks_status_filter (db : DB) (s : String) (t : Task) :
    (getTasks (some s) db).1
      = Resp.okTasks (db.tasks.filter (fun x => x.status == (s == "true"))) ∧
    (t ∈ (getTasks (some s) db).1.tasksOf ↔ t ∈ db.tasks ∧ t.status = (s == "true")) ∧
    (getTasks none db).1 = Resp.okTasks db.tasks := by
  refine ⟨rfl, ?_, rfl⟩
  simp [getTasks, Resp.tasksOf, List.mem_filter]

/-- Claim C2 (confirmed): over every request trace from the empty store,
the ids assigned by the successful creates are pairwise strictly
increasing — each is strictly greater than every previously assigned id —
and therefore unique and never reused, even after the task with an id has
been deleted (no operation ever decrements the counter). -/
theorem create_ids_strictly_increasing (ops : List Op) :
    (createdIds DB.init ops).Pairwise (· < ·) ∧ (createdIds DB.init ops).Nodup := by
  refine ⟨createdIds_pairwise_lt ops DB.init, ?_⟩
  exact List.Pairwise.imp (fun h => ne_of_lt h) (createdIds_pairwise_lt ops DB.init)

/-- Claim C4 counterexample: a POST whose `status` is the string "true" —
present and not a boolean — is answered 201 and the document is
persisted, because express-validator's `isBoolean` also accepts the
strings "true", "false", "0" and "1"; the claim demands 400 with no
persisted document for every non-boolean status. -/
theorem post_status_string_accepted :
    (postTask 0 [("title", BVal.vStr "a"), ("description", BVal.vStr "b"),
        ("status", BVal.vStr "true")] DB.init).1
      = Resp.created ⟨1, "a", "b", true, 0⟩ ∧
    (postTask 0 [("title", BVal.vStr "a"), ("description", BVal.vStr "b"),
        ("status", BVal.vStr "true")] DB.init).2.tasks
      = [⟨1, "a", "b", true, 0⟩] :=
  ⟨rfl, rfl⟩

/-- Claim C4 (amended, confirmed): for every POST whose title is missing
or empty, whose description is missing or empty, or whose status is
present and not accepted by the loose boolean check (boolean values and
the strings "true", "false", "0", "1" and the numbers 0 and 1 pass it),
the response is 400 with the structured list of field-level errors, one
entry per violated rule, and the task collection is unchanged. -/
theorem post_invalid_rejected (now : Int) (body : Body) (db : DB)
    (h : toValidatorStr (getField body "title") = "" ∨
         toValidatorStr (getField body "description") = "" ∨
         ∃ v, getField body "status" = some v ∧
           isBooleanLoose (toValidatorStr (some v)) = false) :
    postTask now body db = (Resp.badRequest (validatePost body), db) ∧
    validatePost body ≠ [] := by
  have hne : validatePost body ≠ [] := by
    unfold validatePost
    rcases h with h | h | ⟨v, hv, hb⟩
    · rw [if_pos h]
      simp [List.append_eq_nil]
    · rw [if_pos h]
      simp [List.append_eq_nil]
    · rw [hv]
      simp only [hb, Bool.false_eq_true, if_false]
      simp [List.append_eq_nil]
  refine ⟨?_, hne⟩
  unfold postTask
  rw [if_neg hne]

/-- Witness for `post_invalid_rejected`: a body with no title field. -/
theorem post_invalid_rejected_witness :
    postTask 0 [("description", BVal.vStr "b")] DB.init
      = (Resp.badRequest (validatePost [("description", BVal.vStr "b")]), DB.init) ∧
    validatePost [("description", BVal.vStr "b")] ≠ [] :=
  post_invalid_rejected 0 [("description", BVal.vStr "b")] DB.init (Or.inl (by decide))

/-- Claim C3 counterexample: a PUT body containing an `id` key does
change the task's id — `findOneAndUpdate` applies the request body
wholesale and `id` is a schema path — contradicting "the task's id ...
never changed ... for every possible body, including bodies that contain
id or creationDate keys". -/
theorem put_changes_id :
    (updateTask "1" [("id", BVal.vNum 999)] exDB).1
      = Resp.okTask ⟨999, "Buy milk", "2%", false, 0⟩ ∧
    (updateTask "1" [("id", BVal.vNum 999)] exDB).2.tasks
      = [⟨999, "Buy milk", "2%", false, 0⟩] :=
  ⟨rfl, rfl⟩

/-- Claim C3 (amended, confirmed): a successful PUT updates exactly the
first task whose id matches and leaves every other task untouched, and it
changes only the fields named in the body: every schema field not named
in the body — in particular `id` and `creationDate` when the body does
not contain those keys — retains its prior value.  (A body that does name
`id` or `creationDate` changes them, as the counterexample shows.) -/
theorem put_frame (rawId : String) (body : Body) (db : DB) (t2 : Task) (db2 : DB)
    (h : updateTask rawId body db = (Resp.okTask t2, db2)) :
    db2.counter = db.counter ∧
    ∃ t pre post, db.tasks = pre ++ t :: post ∧ db2.tasks = pre ++ t2 :: post ∧
      (getField body "title" = none → t2.title = t.title) ∧
      (getField body "description" = none → t2.description = t.description) ∧
      (getField body "status" = none → t2.status = t.status) ∧
      (getField body "id" = none → t2.id = t.id) ∧
      (getField body "creationDate" = none → t2.creationDate = t.creationDate) := by
  unfold updateTask updateCore at h
  split at h
  · exact absurd h (by simp)
  rename_i u hc
  split at h
  case isFalse => exact absurd h (by simp)
  split at h
  · exact absurd h (by simp)
  rename_i n hp
  split at h
  · exact absurd h (by simp)
  rename_i p hl
  split at h
  · exact absurd h (by simp)
  simp only [Prod.mk.injEq, Resp.okTask.injEq] at h
  obtain ⟨h1, h2⟩ := h
  obtain ⟨hct, hcd, hcs, hci, hcc⟩ := castUpd_eq body u hc
  obtain ⟨t, pre, post, he1, he2, he3, _⟩ :=
    updateList_spec n u db.tasks p.1 p.2 (by rw [hl])
  subst h1
  refine ⟨by rw [← h2], t, pre, post, he1, by rw [← h2]; exact he2,
    ?_, ?_, ?_, ?_, ?_⟩
  · intro hgf
    rw [hgf] at hct
    simp only [castOpt, Option.some.injEq] at hct
    rw [he3]
    simp [applyUpd, ← hct]
  · intro hgf
    rw [hgf] at hcd
    simp only [castOpt, Option.some.injEq] at hcd
    rw [he3]
    simp [applyUpd, ← hcd]
  · intro hgf
    rw [hgf] at hcs
    simp only [castOpt, Option.some.injEq] at hcs
    rw [he3]
    simp [applyUpd, ← hcs]
  · intro hgf
    rw [hgf] at hci
    simp only [castOpt, Option.some.injEq] at hci
    rw [he3]
    simp [applyUpd, ← hci]
  · intro hgf
    rw [hgf] at hcc
    simp only [castOpt, Option.some.injEq] at hcc
    rw [he3]
    simp [applyUpd, ← hcc]

/-- Witness for `put_frame`: `PUT /tasks/1 {status: true}` on the sample
database flips only the status. -/
theorem put_frame_witness :
    exDBdone.counter = exDB.counter ∧
    ∃ t pre post, exDB.tasks = pre ++ t :: post ∧
      exDBdone.tasks = pre ++ exTaskDone :: post ∧
      (getField [("status", BVal.vBool true)] "title" = none →
        exTaskDone.title = t.title) ∧
      (getField [("status", BVal.vBool true)] "description" = none →
        exTaskDone.description = t.description) ∧
      (getField [("status", BVal.vBool true)] "status" = none →
        exTaskDone.status = t.status) ∧
      (getField [("status", BVal.vBool true)] "id" = none →
        exTaskDone.id = t.id) ∧
      (getField [("status", BVal.vBool true)] "creationDate" = none →
        exTaskDone.creationDate = t.creationDate) :=
  put_frame "1" [("status", BVal.vBool true)] exDB exTaskDone exDBdone (by decide)

/-- Claim C5 counterexample: PUT setting the title of an existing task to
the empty string is rejected, but through the route's `catch` branch as a
500 — the PUT route has no 400 path — while the claim demands HTTP 400
with per-field messages.  The stored task is unchanged. -/
theorem put_validation_error_is_500 :
    (updateTask "1" [("title", BVal.vStr "")] exDB).1.code = 500 ∧
    (updateTask "1" [("title", BVal.vStr "")] exDB).2 = exDB := by
  decide

/-- Claim C5 (amended, confirmed): for every PUT whose body violates the
schema on an updated path — title or description set to the empty string
or to null (the `required` validator rejects both), or status set to a
non-null value that Mongoose's boolean cast rejects — the request fails
as a ValidationError or CastError surfaced as HTTP 500 with a single
error message, not as a 400 with per-field messages, and the store is
completely unchanged.  Validation checks the updated paths only, not the
merged document; a status, id or creationDate set to null or to any
castable value is accepted by Mongoose and lies outside this failing
domain. -/
theorem put_invalid_500 (rawId : String) (body : Body) (db : DB)
    (h : getField body "title" = some (BVal.vStr "") ∨
         getField body "title" = some BVal.vNull ∨
         getField body "description" = some (BVal.vStr "") ∨
         getField body "description" = some BVal.vNull ∨
         ∃ v, getField body "status" = some v ∧ v ≠ BVal.vNull ∧ castBool v = none) :
    (updateTask rawId body db).1.code = 500 ∧ (updateTask rawId body db).2 = db := by
  have hcase : castUpd body = none ∨
      ∃ u, castUpd body = some u ∧ updValid u = false := by
    cases hcu : castUpd body with
    | none => exact Or.inl rfl
    | some u =>
      refine Or.inr ⟨u, rfl, ?_⟩
      obtain ⟨hct, hcd, hcs, _, _⟩ := castUpd_eq body u hcu
      rcases h with h | h | h | h | ⟨v, hv, _, hcb⟩
      · rw [h] at hct
        have hti : u.title = some "" := by
          simpa [castOpt, castString] using hct.symm
        simp [updValid, hti]
      · rw [h] at hct
        simp [castOpt, castString] at hct
      · rw [h] at hcd
        have hdi : u.description = some "" := by
          simpa [castOpt, castString] using hcd.symm
        simp [updValid, hdi]
      · rw [h] at hcd
        simp [castOpt, castString] at hcd
      · rw [hv] at hcs
        simp [castOpt, hcb] at hcs
  unfold updateTask updateCore
  rcases hcase with hc | ⟨u, hu, hv2⟩
  · simp [hc, Resp.code]
  · simp only [hu]
    rw [if_neg (by simp [hv2])]
    simp [Resp.code]

/-- Witness for `put_invalid_500`: PUT of an empty title on the sample
database. -/
theorem put_invalid_500_witness :
    (updateTask "1" [("title", BVal.vStr "")] exDBdone).1.code = 500 ∧
    (updateTask "1" [("title", BVal.vStr "")] exDBdone).2 = exDBdone :=
  put_invalid_500 "1" [("title", BVal.vStr "")] exDBdone (Or.inl (by decide))

theorem createTask_ok_none (now : Int) (t d : String) (db : DB)
    (ht : t ≠ "") (hd : d ≠ "") (hfresh : ((db.counter : Int) + 1) ∉ db.ids) :
    createTask now (some (BVal.vStr t)) (some (BVal.vStr d)) none db
      = (Resp.created ⟨(db.counter : Int) + 1, t, d, false, now⟩,
         ⟨db.tasks ++ [⟨(db.counter : Int) + 1, t, d, false, now⟩], db.counter + 1⟩) := by
  show (if t = "" ∨ d = "" then (Resp.serverError "Task validation failed", db)
        else if ((db.counter : Int) + 1) ∈ db.ids then
          (Resp.serverError "E11000 duplicate key error", ⟨db.tasks, db.counter + 1⟩)
        else (Resp.created ⟨(db.counter : Int) + 1, t, d, false, now⟩,
          ⟨db.tasks ++ [⟨(db.counter : Int) + 1, t, d, false, now⟩], db.counter + 1⟩))
      = (Resp.created ⟨(db.counter : Int) + 1, t, d, false, now⟩,
         ⟨db.tasks ++ [⟨(db.counter : Int) + 1, t, d, false, now⟩], db.counter + 1⟩)
  rw [if_neg (by simp [ht, hd]), if_neg hfresh]

theorem createTask_ok_some (now : Int) (t d : String) (b : Bool) (db : DB)
    (ht : t ≠ "") (hd : d ≠ "") (hfresh : ((db.counter : Int) + 1) ∉ db.ids) :
    createTask now (some (BVal.vStr t)) (some (BVal.vStr d)) (some (BVal.vBool b)) db
      = (Resp.created ⟨(db.counter : Int) + 1, t, d, b, now⟩,
         ⟨db.tasks ++ [⟨(db.counter : Int) + 1, t, d, b, now⟩], db.counter + 1⟩) := by
  show (if t = "" ∨ d = "" then (Resp.serverError "Task validation failed", db)
        else if ((db.counter : Int) + 1) ∈ db.ids then
          (Resp.serverError "E11000 duplicate key error", ⟨db.tasks, db.counter + 1⟩)
        else (Resp.created ⟨(db.counter : Int) + 1, t, d, b, now⟩,
          ⟨db.tasks ++ [⟨(db.counter : Int) + 1, t, d, b, now⟩], db.counter + 1⟩))
      = (Resp.created ⟨(db.counter : Int) + 1, t, d, b, now⟩,
         ⟨db.tasks ++ [⟨(db.counter : Int) + 1, t, d, b, now⟩], db.counter + 1⟩)
  rw [if_neg (by simp [ht, hd]), if_neg hfresh]

theorem find?_append_fresh (l : List Task) (t : Task) (n : Int)
    (h : ∀ x ∈ l, x.id ≠ n) (ht : t.id = n) :
    (l ++ [t]).find? (fun x => x.id == n) = some t := by
  have h1 : l.find? (fun x => x.id == n) = none :=
    List.find?_eq_none.mpr (fun x hx => by simpa using h x hx)
  rw [List.find?_append, h1, Option.none_or]
  simp [List.find?, ht]

theorem getByIdCore_found (n : Int) (db : DB) (t : Task)
    (h : db.tasks.find? (fun x => x.id == n) = some t) :
    getByIdCore (some n) db = (Resp.okTask t, db) := by
  simp only [getByIdCore]
  rw [h]

/-- Claim C6 (confirmed): every POST with non-empty title and description
(and an optional boolean status) is answered 201 with a task carrying
exactly the submitted title and description, the submitted status or
false when omitted, the next counter value as id, and the creation
timestamp; the store gains exactly that task, and a subsequent GET by the
new id returns exactly it.  (The freshness hypothesis — no stored task
already holds the next counter value — is maintained by every reachable
state and can only be broken by a PUT that overwrites an id.) -/
theorem post_create_roundtrip (now : Int) (title desc : String) (status : Option Bool)
    (db : DB) (ht : title ≠ "") (hd : desc ≠ "")
    (hfresh : ((db.counter : Int) + 1) ∉ db.ids) :
    postTask now (mkPostBody title desc status) db
      = (Resp.created ⟨(db.counter : Int) + 1, title, desc, status.getD false, now⟩,
         ⟨db.tasks ++ [⟨(db.counter : Int) + 1, title, desc, status.getD false, now⟩],
          db.counter + 1⟩) ∧
    getByIdCore (some ((db.counter : Int) + 1))
        ⟨db.tasks ++ [⟨(db.counter : Int) + 1, title, desc, status.getD false, now⟩],
         db.counter + 1⟩
      = (Resp.okTask ⟨(db.counter : Int) + 1, title, desc, status.getD false, now⟩,
         ⟨db.tasks ++ [⟨(db.counter : Int) + 1, title, desc, status.getD false, now⟩],
          db.counter + 1⟩) := by
  have hgt : getField (mkPostBody title desc status) "title"
      = some (BVal.vStr title) := by cases status <;> rfl
  have hgd : getField (mkPostBody title desc status) "description"
      = some (BVal.vStr desc) := by cases status <;> rfl
  have hgs : getField (mkPostBody title desc status) "status"
      = status.map BVal.vBool := by cases status <;> rfl
  have hval : validatePost (mkPostBody title desc status) = [] := by
    unfold validatePost
    rw [hgt, hgd, hgs]
    cases status with
    | none => simp [toValidatorStr, ht, hd]
    | some b => cases b <;> simp [toValidatorStr, ht, hd, isBooleanLoose]
  constructor
  · unfold postTask
    rw [if_pos hval, hgt, hgd, hgs]
    cases status with
    | none => exact createTask_ok_none now title desc db ht hd hfresh
    | some b => exact createTask_ok_some now title desc b db ht hd hfresh
  · exact getByIdCore_found _ _ _ (find?_append_fresh db.tasks _ _
      (fun x hx hxe => hfresh (hxe ▸ List.mem_map_of_mem Task.id hx)) rfl)

/-- Witness for `post_create_roundtrip`: the specification's example
scenario, creating {title: "Buy milk", description: "2%"}. -/
theorem post_create_roundtrip_witness :
    postTask 7 (mkPostBody "Buy milk" "2%" none) DB.init
      = (Resp.created ⟨1, "Buy milk", "2%", false, 7⟩,
         ⟨[⟨1, "Buy milk", "2%", false, 7⟩], 1⟩) ∧
    getByIdCore (some 1) ⟨[⟨1, "Buy milk", "2%", false, 7⟩], 1⟩
      = (Resp.okTask ⟨1, "Buy milk", "2%", false, 7⟩,
         ⟨[⟨1, "Buy milk", "2%", false, 7⟩], 1⟩) :=
  post_create_roundtrip 7 "Buy milk" "2%" none DB.init (by decide) (by decide)
    (by decide)

/-- Claim C7 counterexample: with the empty store — where no integer id
is assigned — `PUT /tasks/1 {title: ""}` is answered 500, not 404: the
update validators run client-side before the document lookup, so the
validation failure pre-empts the not-found response. -/
theorem put_unassigned_id_500 :
    DB.init.tasks = [] ∧
    (updateTask "1" [("title", BVal.vStr "")] DB.init).1.code = 500 ∧
    (updateTask "1" [("title", BVal.vStr "")] DB.init).1
      ≠ Resp.notFound "Tarea no encontrada" := by
  decide

/-- Claim C7 (amended, confirmed): for every integer id not assigned to
any stored task, GET and DELETE answer 404 with a message body and leave
the collection unchanged, and PUT answers 404 with the collection
unchanged provided its body passes update casting and validation (an
invalid body yields 500 instead, as the counterexample shows, still with
the collection unchanged). -/
theorem unassigned_id_responses (db : DB) (n : Int) (body : Body) (u : Upd)
    (h : ∀ t ∈ db.tasks, t.id ≠ n)
    (hb : castUpd body = some u) (hv : updValid u = true) :
    getByIdCore (some n) db = (Resp.notFound "Tarea no encontrada", db) ∧
    deleteCore (some n) db = (Resp.notFound "Tarea no encontrada", db) ∧
    updateCore (some n) body db = (Resp.notFound "Tarea no encontrada", db) := by
  refine ⟨?_, ?_, ?_⟩
  · simp only [getByIdCore]
    rw [List.find?_eq_none.mpr (fun x hx => by simpa using h x hx)]
  · simp only [deleteCore]
    rw [removeFirst_eq_none n db.tasks h]
  · simp only [updateCore, hb]
    rw [if_pos hv, updateList_eq_none n u db.tasks h]

/-- Witness for `unassigned_id_responses`: id 7 on the sample database,
with a PUT body that casts and validates. -/
theorem unassigned_id_responses_witness :
    getByIdCore (some 7) exDB = (Resp.notFound "Tarea no encontrada", exDB) ∧
    deleteCore (some 7) exDB = (Resp.notFound "Tarea no encontrada", exDB) ∧
    updateCore (some 7) [("title", BVal.vStr "x")] exDB
      = (Resp.notFound "Tarea no encontrada", exDB) :=
  unassigned_id_responses exDB 7 [("title", BVal.vStr "x")]
    ⟨some "x", none, none, none, none⟩ (by decide) (by decide) (by decide)

/-- Claim C8 (confirmed): deleting an existing task answers 200 with the
confirmation message, removes exactly that task's id from the store, and
an immediately following GET of the same id answers 404.  (The stored ids
are pairwise distinct in every reachable state.) -/
theorem delete_then_get_404 (db : DB) (n : Int)
    (hmem : n ∈ db.ids) (hnd : db.ids.Nodup) :
    (deleteCore (some n) db).1 = Resp.okMsg "Tarea eliminada correctamente" ∧
    ((deleteCore (some n) db).2).ids = db.ids.erase n ∧
    (getByIdCore (some n) (deleteCore (some n) db).2).1
      = Resp.notFound "Tarea no encontrada" := by
  obtain ⟨l2, h1, h2, h3⟩ := removeFirst_spec n db.tasks hmem hnd
  have hdel : deleteCore (some n) db
      = (Resp.okMsg "Tarea eliminada correctamente", ⟨l2, db.counter⟩) := by
    simp only [deleteCore]
    rw [h1]
  rw [hdel]
  refine ⟨rfl, h2, ?_⟩
  simp only [getByIdCore]
  rw [h3]

/-- Witness for `delete_then_get_404`: deleting id 1 on the sample
database. -/
theorem delete_then_get_404_witness :
    (deleteCore (some 1) exDB).1 = Resp.okMsg "Tarea eliminada correctamente" ∧
    ((deleteCore (some 1) exDB).2).ids = exDB.ids.erase 1 ∧
    (getByIdCore (some 1) (deleteCore (some 1) exDB).2).1
      = Resp.notFound "Tarea no encontrada" :=
  delete_then_get_404 exDB 1 (by decide) (by decide)

/-- Claim C10 (confirmed): the create handler reads only the title,
description and status fields of the body (it destructures exactly those
three), so two POST bodies agreeing on them — whatever other fields they
contain, including id and creationDate keys — produce identical responses
and identical stores. -/
theorem post_reads_only_three_fields (now : Int) (b1 b2 : Body) (db : DB)
    (ht : getField b1 "title" = getField b2 "title")
    (hd : getField b1 "description" = getField b2 "description")
    (hs : getField b1 "status" = getField b2 "status") :
    postTask now b1 db = postTask now b2 db := by
  unfold postTask validatePost
  rw [ht, hd, hs]

/-- Witness for `post_reads_only_three_fields`: a body smuggling id and
creationDate keys against one without them. -/
theorem post_reads_only_three_fields_witness :
    postTask 0 [("title", BVal.vStr "a"), ("description", BVal.vStr "b"),
        ("id", BVal.vNum 50), ("creationDate", BVal.vNum 123)] DB.init
      = postTask 0 [("title", BVal.vStr "a"), ("description", BVal.vStr "b")]
          DB.init :=
  post_reads_only_three_fields 0 _ _ DB.init (by decide) (by decide) (by decide)

end TaskManager
